import Mathlib

/-!
Shallow embedding of the repository's HTTP client wrapper
(src/client/http.py, src/client/service.py).

The wrapper owns an aiohttp session handle, a pluggable JSON codec pair and
three prometheus failure counters. `post` and `get` delegate to a shared
dispatch routine `_do_request` that invokes a transport verb, branches on the
status code, decodes JSON on success, and records exactly one failure counter
on each failure path.

The transport (aiohttp), the metrics backend (prometheus) and the logging
backend are external collaborators; they are embedded as:
  - the transport: a function from the argument record the code passes to
    `method(...)` (url, data, params, headers, timeout, ssl) to an outcome
    (a response, a timeout exception, or any other exception);
  - the counters: label-indexed natural-valued functions, with the
    prometheus `labels(app_name, url).inc()` call adding one at exactly
    that label pair;
  - the logger: an append-only list of structured records.

Python exceptions are embedded as `Except` values: a Python callable that may
raise becomes a Lean function into `Except String _`, and a Lean function with
a plain (non-`Except`) result type embeds Python code that cannot raise.
-/

namespace HttpClientSpec

/-- Python `bytes`: a sequence of byte values. -/
abbrev ByteSeq := List Nat

/-- JSON-representable values, the payloads of the pluggable codec. -/
inductive JsonValue where
  | null
  | bool (b : Bool)
  | num (n : Int)
  | str (s : String)
  | arr (elems : List JsonValue)
  | obj (fields : List (String × JsonValue))

/-- `HeadersT = dict[str, str]` from src/client/http.py. -/
abbrev HeadersT := List (String × String)

/-- A query-parameter value: `str | int` from `ParamsT` in src/client/http.py. -/
inductive ParamValue where
  | str (v : String)
  | int (v : Int)

/-- `ParamsT = dict[str, str | int]` from src/client/http.py. -/
abbrev ParamsT := List (String × ParamValue)

/-- `TimeoutT = float | int` from src/client/http.py, embedded as a rational. -/
abbrev TimeoutT := Rat

/-- `HTTP_200_OK = 200` from src/client/http.py. -/
def HTTP_200_OK : Nat := 200

/-- `DEFAULT_POST_HEADERS` from src/client/http.py. -/
def DEFAULT_POST_HEADERS : HeadersT :=
  [("Content-Type", "application/json"), ("accept", "application/json")]

/-- `DEFAULT_GET_HEADERS` from src/client/http.py. -/
def DEFAULT_GET_HEADERS : HeadersT :=
  [("accept", "application/json")]

/-- The HTTP verb bound to the transport callable passed to `_do_request`
(`self.session.post` or `self.session.get`). -/
inductive Verb where
  | post
  | get

/-- The response object yielded by the transport: `.status`, plus the results
of `await response.read()` (bytes) and `await response.text()` (text). -/
structure HttpResponse where
  status : Nat
  bodyBytes : ByteSeq
  bodyText : String

/-- What a single transport invocation does: return a response, raise
`asyncio.TimeoutError`, or raise any other exception (this constructor also
covers a failure while reading the body, which the code's `except Exception`
catches the same way). -/
inductive TransportOutcome where
  | timeout
  | exn
  | response (resp : HttpResponse)

/-- The argument record `_do_request` passes to the transport verb:
`method(url, data=request, params=params, headers=headers, timeout=timeout,
ssl=False)` in src/client/http.py lines 155-162. -/
structure TransportCall where
  verb : Verb
  url : String
  data : Option ByteSeq
  params : Option ParamsT
  headers : Option HeadersT
  timeout : Option TimeoutT
  ssl : Bool

/-- The transport collaborator: maps each invocation to its outcome. -/
abbrev Transport := TransportCall → TransportOutcome

/-- Structured log records emitted by `_do_request`:
`log.warning('Request failed', extra={'status', 'text', 'url'})`,
`log.exception('Request timed out', extra={'url'})`,
`log.exception('Request exception', extra={'url'})`. -/
inductive LogRecord where
  | requestFailed (status : Nat) (text : String) (url : String)
  | requestTimedOut (url : String)
  | requestException (url : String)

/-- The aiohttp `ClientSession` as constructed in `HttpClient.__init__`:
`ClientSession(connector=TCPConnector(limit=..., force_close=True),
timeout=...)`, plus whether `close()` has been awaited. -/
structure SessionState where
  connection_limit : Nat
  force_close : Bool
  session_timeout : TimeoutT
  closed : Bool

/-- The mutable state an `HttpClient` instance owns: the session handle and
the three prometheus counters (each indexed by the label pair
(app_name, url)), plus the log stream. -/
structure ClientState where
  session : Option SessionState
  http_requests_failed : String → String → Nat
  http_requests_timeout : String → String → Nat
  http_exceptions : String → String → Nat
  logRecords : List LogRecord

/-- The immutable configuration of an `HttpClient` instance, from
`HttpClient.__init__`. The codec callables may raise, hence `Except`. -/
structure HttpClient where
  app_name : String
  http_connection_limit : Nat
  http_request_timeout : TimeoutT
  json_serialize : JsonValue → Except String ByteSeq
  json_deserialize : ByteSeq → Except String JsonValue

/-- `HttpClient.__init__`: stores the configuration, creates the session with
the given connection limit (force_close=True) and the request timeout as the
session timeout, and registers the three counters at zero. -/
def HttpClient.mk_client (app_name : String) (http_connection_limit : Nat)
    (http_request_timeout : TimeoutT)
    (json_serialize : JsonValue → Except String ByteSeq)
    (json_deserialize : ByteSeq → Except String JsonValue) :
    HttpClient × ClientState :=
  ({ app_name := app_name
     http_connection_limit := http_connection_limit
     http_request_timeout := http_request_timeout
     json_serialize := json_serialize
     json_deserialize := json_deserialize },
   { session := some
       { connection_limit := http_connection_limit
         force_close := true
         session_timeout := http_request_timeout
         closed := false }
     http_requests_failed := fun _ _ => 0
     http_requests_timeout := fun _ _ => 0
     http_exceptions := fun _ _ => 0
     logRecords := [] })

/-- `counter.labels(app_name, url).inc()`: add one to the counter at exactly
the label pair (a, u), leaving every other label pair unchanged. -/
def incCounter (counter : String → String → Nat) (a u : String) :
    String → String → Nat :=
  fun a2 u2 => if a2 = a ∧ u2 = u then counter a2 u2 + 1 else counter a2 u2

/-- The argument record built by `_do_request` for the transport invocation;
`ssl` is the literal `False` from the source. -/
def requestCall (verb : Verb) (url : String) (request : Option ByteSeq)
    (params : Option ParamsT) (headers : Option HeadersT)
    (timeout : Option TimeoutT) : TransportCall :=
  { verb := verb, url := url, data := request, params := params
    headers := headers, timeout := timeout, ssl := false }

/-- `HttpClient._do_request` (src/client/http.py lines 135-175): invoke the
transport verb inside try/except; on a response with status 200 read the body,
deserialize and return it (a deserialization exception falls through to the
generic `except Exception` handler); on any other status read the text,
bump `http_requests_failed` and log a warning; on `asyncio.TimeoutError`
bump `http_requests_timeout` and log; on any other exception bump
`http_exceptions` and log; every handled path returns None. -/
def do_request (c : HttpClient) (t : Transport) (verb : Verb) (url : String)
    (request : Option ByteSeq) (params : Option ParamsT)
    (headers : Option HeadersT) (timeout : Option TimeoutT)
    (s : ClientState) : Option JsonValue × ClientState :=
  match t (requestCall verb url request params headers timeout) with
  | TransportOutcome.response resp =>
      if resp.status = HTTP_200_OK then
        match c.json_deserialize resp.bodyBytes with
        | Except.ok decoded => (some decoded, s)
        | Except.error _ =>
            (none,
             { s with
                 http_exceptions := incCounter s.http_exceptions c.app_name url
                 logRecords := s.logRecords ++ [LogRecord.requestException url] })
      else
        (none,
         { s with
             http_requests_failed := incCounter s.http_requests_failed c.app_name url
             logRecords :=
               s.logRecords ++ [LogRecord.requestFailed resp.status resp.bodyText url] })
  | TransportOutcome.timeout =>
      (none,
       { s with
           http_requests_timeout := incCounter s.http_requests_timeout c.app_name url
           logRecords := s.logRecords ++ [LogRecord.requestTimedOut url] })
  | TransportOutcome.exn =>
      (none,
       { s with
           http_exceptions := incCounter s.http_exceptions c.app_name url
           logRecords := s.logRecords ++ [LogRecord.requestException url] })

/-- `HttpClient.post`: serializes the request value with `json_serialize`
BEFORE delegating to `_do_request` — the serialization happens outside the
try/except of `_do_request`, so a serialization exception propagates to the
caller (the `Except.error` branch). -/
def HttpClient.post (c : HttpClient) (t : Transport) (url : String)
    (request : JsonValue) (headers : Option HeadersT) (timeout : Option TimeoutT)
    (s : ClientState) : Except String (Option JsonValue × ClientState) :=
  match c.json_serialize request with
  | Except.error e => Except.error e
  | Except.ok raw =>
      Except.ok (do_request c t Verb.post url (some raw) none headers timeout s)

/-- `HttpClient.get`: delegates to `_do_request` with no body; nothing in it
can raise, so its result type is a plain pair. -/
def HttpClient.get (c : HttpClient) (t : Transport) (url : String)
    (params : Option ParamsT) (headers : Option HeadersT)
    (timeout : Option TimeoutT) (s : ClientState) :
    Option JsonValue × ClientState :=
  do_request c t Verb.get url none params headers timeout s

/-- `HttpClient.stop`: `if self.session: await self.session.close()` — closes
the session when one exists, otherwise does nothing; `ClientSession.close` on
an already-closed session is a no-op, and nothing here can raise. -/
def HttpClient.stop (s : ClientState) : ClientState :=
  match s.session with
  | none => s
  | some sess => { s with session := some { sess with closed := true } }

/-- Modelled from the spec: the transport collaborator's timeout resolution.
The aiohttp transport is an external collaborator, not code of this
repository; spec section 4.1 says `requestTimeout` is the "default per-call
timeout when none is supplied per-call" and section 5 says each call carries
"per-call override, else the constructor default". The session is constructed
with `timeout=self.http_request_timeout`, so the session default is the
constructor value. -/
def effectiveTimeout (sess : SessionState) (perCall : Option TimeoutT) :
    TimeoutT :=
  match perCall with
  | some v => v
  | none => sess.session_timeout

/-- A transport outcome that `_do_request` classifies as a failure for this
client: a raised timeout, any other raised exception, a non-200 status, or a
200 status whose body the client's deserializer rejects. -/
def isFailurePath (c : HttpClient) (out : TransportOutcome) : Bool :=
  match out with
  | TransportOutcome.timeout => true
  | TransportOutcome.exn => true
  | TransportOutcome.response resp =>
      if resp.status = HTTP_200_OK then
        match c.json_deserialize resp.bodyBytes with
        | Except.ok _ => false
        | Except.error _ => true
      else true

/-! Concrete fixtures used by counterexamples and witnesses. -/

/-- A transport that yields the same outcome for every call. -/
def constTransport (out : TransportOutcome) : Transport := fun _ => out

/-- A serializer mirroring `orjson.dumps` succeeding on the test payload. -/
def okSerializer : JsonValue → Except String ByteSeq :=
  fun _ => Except.ok [123, 34, 97, 34, 58, 49, 125]

/-- A serializer mirroring `orjson.dumps` raising `TypeError` on an
unserializable value. -/
def failingSerializer : JsonValue → Except String ByteSeq :=
  fun _ => Except.error "TypeError: unserializable"

/-- A deserializer mirroring `orjson.loads` decoding the test body
to the object value from the spec scenario. -/
def okDeserializer : ByteSeq → Except String JsonValue :=
  fun _ => Except.ok (JsonValue.obj [("a", JsonValue.num 1)])

/-- A deserializer mirroring `orjson.loads` raising `JSONDecodeError`. -/
def badDeserializer : ByteSeq → Except String JsonValue :=
  fun _ => Except.error "JSONDecodeError"

/-- The spec's concrete scenario executor: app name "svc",
connection limit 1, request timeout 2, orjson-like codec. -/
def testClient : HttpClient × ClientState :=
  HttpClient.mk_client "svc" 1 2 okSerializer okDeserializer

/-- A 200 response carrying the body bytes of the JSON text of
the object value decoded by `okDeserializer`. -/
def resp200 : HttpResponse :=
  { status := 200, bodyBytes := [123, 34, 97, 34, 58, 49, 125], bodyText := "" }

/-- A 404 response carrying the body text "not found" from the spec
scenario. -/
def resp404 : HttpResponse :=
  { status := 404, bodyBytes := [], bodyText := "not found" }

/-- C1: the claim says no exception or error value escapes post or get,
including exceptions raised by serializing the request in post. This
counterexample refutes it: with a serializer that raises, `post` propagates
the error to the caller instead of returning an absent value, even though the
transport would have answered 200 — because `self.json_serialize(request)`
runs in `post` before `_do_request` and outside its try/except. -/
theorem post_serialize_error_escapes :
    HttpClient.post
      (HttpClient.mk_client "svc" 1 2 failingSerializer okDeserializer).1
      (constTransport (TransportOutcome.response resp200)) "http://x/y"
      (JsonValue.str "v") (some DEFAULT_POST_HEADERS) none
      (HttpClient.mk_client "svc" 1 2 failingSerializer okDeserializer).2
      = Except.error "TypeError: unserializable" := rfl

/-- C1 amended: no exception escapes `get` or the dispatch `_do_request`
(both are total functions into plain values), every failure outcome of the
dispatch returns the absent value, and `post` raises exactly the exceptions
its serialization step raises: when `json_serialize` succeeds `post` returns
the dispatch result, and when it raises the same error escapes to the
caller. -/
theorem post_get_error_containment (c : HttpClient) (t : Transport)
    (url : String) (req : JsonValue) (params : Option ParamsT)
    (headers : Option HeadersT) (timeout : Option TimeoutT) (s : ClientState) :
    (∀ raw, c.json_serialize req = Except.ok raw →
      HttpClient.post c t url req headers timeout s
        = Except.ok (do_request c t Verb.post url (some raw) none headers timeout s)) ∧
    (∀ e, c.json_serialize req = Except.error e →
      HttpClient.post c t url req headers timeout s = Except.error e) ∧
    (∀ verb request,
      isFailurePath c (t (requestCall verb url request params headers timeout)) = true →
      (do_request c t verb url request params headers timeout s).1 = none) := by
  refine ⟨?_, ?_, ?_⟩
  · intro raw hser
    simp [HttpClient.post, hser]
  · intro e hser
    simp [HttpClient.post, hser]
  · intro verb request hfail
    cases hout : t (requestCall verb url request params headers timeout) with
    | timeout => simp [do_request, hout]
    | exn => simp [do_request, hout]
    | response resp =>
        by_cases hstatus : resp.status = HTTP_200_OK
        · cases hdec : c.json_deserialize resp.bodyBytes with
          | ok v =>
              exact absurd hfail (by simp [isFailurePath, hout, hstatus, hdec])
          | error e => simp [do_request, hout, hstatus, hdec]
        · simp [do_request, hout, hstatus]

/-- C1 amended, witness: at the concrete scenario client, a succeeding
serialization makes `post` return the dispatch result, and the timeout
failure path of the dispatch returns the absent value. -/
theorem post_get_error_containment_witness :
    (HttpClient.post testClient.1 (constTransport TransportOutcome.timeout)
        "http://x/y" (JsonValue.str "v") (some DEFAULT_POST_HEADERS) none testClient.2
      = Except.ok (do_request testClient.1 (constTransport TransportOutcome.timeout)
          Verb.post "http://x/y" (some [123, 34, 97, 34, 58, 49, 125]) none
          (some DEFAULT_POST_HEADERS) none testClient.2)) ∧
    (do_request testClient.1 (constTransport TransportOutcome.timeout)
        Verb.get "http://x/y" none none none none testClient.2).1 = none := by
  have h := post_get_error_containment testClient.1
    (constTransport TransportOutcome.timeout) "http://x/y" (JsonValue.str "v")
    none (some DEFAULT_POST_HEADERS) none testClient.2
  exact ⟨h.1 [123, 34, 97, 34, 58, 49, 125] rfl, h.2.2 Verb.get none rfl⟩

/-- C2: when the transport returns a response with status 200, `_do_request`
reads the full body, passes exactly those bytes to `json_deserialize`, and
when decoding yields a value, that value is returned to the caller, with
counters and log untouched. -/
theorem response_200_returns_decoded (c : HttpClient) (t : Transport)
    (verb : Verb) (url : String) (request : Option ByteSeq)
    (params : Option ParamsT) (headers : Option HeadersT)
    (timeout : Option TimeoutT) (s : ClientState) (resp : HttpResponse)
    (val : JsonValue)
    (hresp : t (requestCall verb url request params headers timeout)
      = TransportOutcome.response resp)
    (hstatus : resp.status = HTTP_200_OK)
    (hdec : c.json_deserialize resp.bodyBytes = Except.ok val) :
    do_request c t verb url request params headers timeout s = (some val, s) := by
  simp [do_request, hresp, hstatus, hdec]

/-- C2 witness: the spec's concrete scenario — status 200 with the JSON body
of the object with field "a" = 1 yields exactly that decoded object. -/
theorem response_200_returns_decoded_witness :
    resp200.status = HTTP_200_OK ∧
    testClient.1.json_deserialize resp200.bodyBytes
      = Except.ok (JsonValue.obj [("a", JsonValue.num 1)]) ∧
    do_request testClient.1 (constTransport (TransportOutcome.response resp200))
        Verb.post "http://x/y" (some [123, 34, 97, 34, 58, 49, 125]) none
        (some DEFAULT_POST_HEADERS) none testClient.2
      = (some (JsonValue.obj [("a", JsonValue.num 1)]), testClient.2) :=
  ⟨rfl, rfl,
    response_200_returns_decoded testClient.1
      (constTransport (TransportOutcome.response resp200)) Verb.post "http://x/y"
      (some [123, 34, 97, 34, 58, 49, 125]) none (some DEFAULT_POST_HEADERS)
      none testClient.2 resp200 (JsonValue.obj [("a", JsonValue.num 1)])
      rfl rfl rfl⟩

/-- C3: when the transport returns any non-200 status, the dispatch returns
the absent value, `http_requests_failed` at the label pair (app_name, url)
grows by exactly one while every other label pair is unchanged, the other two
counters are untouched, and a warning record carrying the status, the body
text and the url is appended to the log. -/
theorem response_non_200_counts_failed (c : HttpClient) (t : Transport)
    (verb : Verb) (url : String) (request : Option ByteSeq)
    (params : Option ParamsT) (headers : Option HeadersT)
    (timeout : Option TimeoutT) (s : ClientState) (resp : HttpResponse)
    (hresp : t (requestCall verb url request params headers timeout)
      = TransportOutcome.response resp)
    (hstatus : resp.status ≠ HTTP_200_OK) :
    do_request c t verb url request params headers timeout s
      = (none,
         { s with
             http_requests_failed := incCounter s.http_requests_failed c.app_name url
             logRecords :=
               s.logRecords ++ [LogRecord.requestFailed resp.status resp.bodyText url] }) ∧
    (do_request c t verb url request params headers timeout s).2.http_requests_failed
        c.app_name url
      = s.http_requests_failed c.app_name url + 1 ∧
    (∀ a u, ¬(a = c.app_name ∧ u = url) →
      (do_request c t verb url request params headers timeout s).2.http_requests_failed a u
        = s.http_requests_failed a u) := by
  have h : do_request c t verb url request params headers timeout s
      = (none,
         { s with
             http_requests_failed := incCounter s.http_requests_failed c.app_name url
             logRecords :=
               s.logRecords ++ [LogRecord.requestFailed resp.status resp.bodyText url] }) := by
    simp [do_request, hresp, hstatus]
  refine ⟨h, ?_, ?_⟩
  · rw [h]; simp [incCounter]
  · intro a u hau
    rw [h]; simp only [incCounter]
    exact if_neg hau

/-- C3 witness: the spec's 404 scenario — return value absent, failed counter
for ("svc", "http://x/y") moves from 0 to 1. -/
theorem response_non_200_counts_failed_witness :
    resp404.status ≠ HTTP_200_OK ∧
    (do_request testClient.1 (constTransport (TransportOutcome.response resp404))
        Verb.post "http://x/y" (some [123, 34, 97, 34, 58, 49, 125]) none
        (some DEFAULT_POST_HEADERS) none testClient.2).2.http_requests_failed
        "svc" "http://x/y"
      = testClient.2.http_requests_failed "svc" "http://x/y" + 1 := by
  refine ⟨by decide, ?_⟩
  exact (response_non_200_counts_failed testClient.1
    (constTransport (TransportOutcome.response resp404)) Verb.post "http://x/y"
    (some [123, 34, 97, 34, 58, 49, 125]) none (some DEFAULT_POST_HEADERS)
    none testClient.2 resp404 rfl (by decide)).2.1

/-- C4: when the transport raises a timeout, the dispatch returns the absent
value, `http_requests_timeout` at (app_name, url) grows by exactly one, and
the `http_requests_failed` and `http_exceptions` counters are unchanged. -/
theorem timeout_counts_timeout_only (c : HttpClient) (t : Transport)
    (verb : Verb) (url : String) (request : Option ByteSeq)
    (params : Option ParamsT) (headers : Option HeadersT)
    (timeout : Option TimeoutT) (s : ClientState)
    (hresp : t (requestCall verb url request params headers timeout)
      = TransportOutcome.timeout) :
    do_request c t verb url request params headers timeout s
      = (none,
         { s with
             http_requests_timeout := incCounter s.http_requests_timeout c.app_name url
             logRecords := s.logRecords ++ [LogRecord.requestTimedOut url] }) ∧
    (do_request c t verb url request params headers timeout s).2.http_requests_timeout
        c.app_name url
      = s.http_requests_timeout c.app_name url + 1 ∧
    (do_request c t verb url request params headers timeout s).2.http_requests_failed
      = s.http_requests_failed ∧
    (do_request c t verb url request params headers timeout s).2.http_exceptions
      = s.http_exceptions := by
  have h : do_request c t verb url request params headers timeout s
      = (none,
         { s with
             http_requests_timeout := incCounter s.http_requests_timeout c.app_name url
             logRecords := s.logRecords ++ [LogRecord.requestTimedOut url] }) := by
    simp [do_request, hresp]
  refine ⟨h, ?_, ?_, ?_⟩
  · rw [h]; simp [incCounter]
  · rw [h]
  · rw [h]

/-- C4 witness: the spec's timeout scenario on `get` — return value absent,
timeout counter for ("svc", "http://x/y") moves from 0 to 1, failed and
exception counters untouched. -/
theorem timeout_counts_timeout_only_witness :
    (do_request testClient.1 (constTransport TransportOutcome.timeout)
        Verb.get "http://x/y" none (some [("q", ParamValue.str "1")]) none
        none testClient.2).2.http_requests_timeout "svc" "http://x/y"
      = testClient.2.http_requests_timeout "svc" "http://x/y" + 1 ∧
    (do_request testClient.1 (constTransport TransportOutcome.timeout)
        Verb.get "http://x/y" none (some [("q", ParamValue.str "1")]) none
        none testClient.2).2.http_requests_failed
      = testClient.2.http_requests_failed := by
  have h := timeout_counts_timeout_only testClient.1
    (constTransport TransportOutcome.timeout) Verb.get "http://x/y" none
    (some [("q", ParamValue.str "1")]) none none testClient.2 rfl
  exact ⟨h.2.1, h.2.2.1⟩

/-- C5: when the transport raises a non-timeout exception, the dispatch
returns the absent value and `http_exceptions` at (app_name, url) grows by
exactly one, the other two counters unchanged. -/
theorem exception_counts_exceptions (c : HttpClient) (t : Transport)
    (verb : Verb) (url : String) (request : Option ByteSeq)
    (params : Option ParamsT) (headers : Option HeadersT)
    (timeout : Option TimeoutT) (s : ClientState)
    (hresp : t (requestCall verb url request params headers timeout)
      = TransportOutcome.exn) :
    do_request c t verb url request params headers timeout s
      = (none,
         { s with
             http_exceptions := incCounter s.http_exceptions c.app_name url
             logRecords := s.logRecords ++ [LogRecord.requestException url] }) ∧
    (do_request c t verb url request params headers timeout s).2.http_exceptions
        c.app_name url
      = s.http_exceptions c.app_name url + 1 := by
  have h : do_request c t verb url request params headers timeout s
      = (none,
         { s with
             http_exceptions := incCounter s.http_exceptions c.app_name url
             logRecords := s.logRecords ++ [LogRecord.requestException url] }) := by
    simp [do_request, hresp]
  refine ⟨h, ?_⟩
  rw [h]; simp [incCounter]

/-- C5 witness: a connection-reset-style exception on `post` — return value
absent, exception counter for ("svc", "http://x/y") moves from 0 to 1. -/
theorem exception_counts_exceptions_witness :
    do_request testClient.1 (constTransport TransportOutcome.exn)
        Verb.post "http://x/y" (some [123, 34, 97, 34, 58, 49, 125]) none
        (some DEFAULT_POST_HEADERS) none testClient.2
      = (none,
         { testClient.2 with
             http_exceptions :=
               incCounter testClient.2.http_exceptions "svc" "http://x/y"
             logRecords := [LogRecord.requestException "http://x/y"] }) :=
  (exception_counts_exceptions testClient.1 (constTransport TransportOutcome.exn)
    Verb.post "http://x/y" (some [123, 34, 97, 34, 58, 49, 125]) none
    (some DEFAULT_POST_HEADERS) none testClient.2 rfl).1

/-- C6: when no per-call timeout is supplied, the call record handed to the
transport carries no timeout, the constructor stored its `requestTimeout` as
the session default, and the transport's timeout resolution (modelled from
the spec, see `effectiveTimeout`) therefore resolves the call to exactly the
constructor's `requestTimeout`. -/
theorem default_timeout_governs (app : String) (limit : Nat) (rt : TimeoutT)
    (ser : JsonValue → Except String ByteSeq)
    (deser : ByteSeq → Except String JsonValue) (sess : SessionState)
    (hsess : (HttpClient.mk_client app limit rt ser deser).2.session = some sess) :
    (∀ verb url request params headers,
      (requestCall verb url request params headers none).timeout = none) ∧
    effectiveTimeout sess none
      = (HttpClient.mk_client app limit rt ser deser).1.http_request_timeout := by
  constructor
  · intro verb url request params headers
    rfl
  · have : sess
        = { connection_limit := limit, force_close := true
            session_timeout := rt, closed := false } := by
      have h := hsess
      simp [HttpClient.mk_client] at h
      exact h.symm
    rw [this]
    rfl

/-- C6 witness: the spec's scenario executor (requestTimeout = 2) — a call
with the timeout argument omitted resolves to timeout 2. -/
theorem default_timeout_governs_witness :
    testClient.2.session
      = some { connection_limit := 1, force_close := true
               session_timeout := 2, closed := false } ∧
    effectiveTimeout
        { connection_limit := 1, force_close := true
          session_timeout := 2, closed := false } none
      = testClient.1.http_request_timeout := by
  refine ⟨rfl, ?_⟩
  exact (default_timeout_governs "svc" 1 2 okSerializer okDeserializer
    { connection_limit := 1, force_close := true
      session_timeout := 2, closed := false } rfl).2

/-- C7: every call record built by the dispatch has its ssl flag false (the
literal `ssl=False` of the source, with no parameter to change it), so the
results of `post` and `get` depend only on the transport's behavior at
ssl-disabled calls: two transports agreeing on every ssl-disabled call give
identical results. -/
theorem tls_verification_disabled (c : HttpClient) (t t2 : Transport)
    (url : String) (req : JsonValue) (params : Option ParamsT)
    (headers : Option HeadersT) (timeout : Option TimeoutT) (s : ClientState) :
    (∀ verb request, (requestCall verb url request params headers timeout).ssl = false) ∧
    ((∀ call, call.ssl = false → t call = t2 call) →
      HttpClient.post c t url req headers timeout s
        = HttpClient.post c t2 url req headers timeout s ∧
      HttpClient.get c t url params headers timeout s
        = HttpClient.get c t2 url params headers timeout s) := by
  constructor
  · intro verb request
    rfl
  · intro hagree
    have hcall : ∀ verb request2 params2,
        t (requestCall verb url request2 params2 headers timeout)
          = t2 (requestCall verb url request2 params2 headers timeout) :=
      fun verb request2 params2 =>
        hagree (requestCall verb url request2 params2 headers timeout) rfl
    constructor
    · unfold HttpClient.post do_request
      simp only [hcall]
    · unfold HttpClient.get do_request
      simp only [hcall]

/-- C7 witness: against a probe transport that misbehaves exactly on
ssl-enabled calls, `post` and `get` behave as against the plain 200
transport — the probe is never hit because every call carries ssl=false. -/
theorem tls_verification_disabled_witness :
    HttpClient.post testClient.1
        (constTransport (TransportOutcome.response resp200)) "http://x/y"
        (JsonValue.str "v") (some DEFAULT_POST_HEADERS) none testClient.2
      = HttpClient.post testClient.1
          (fun call => if call.ssl then TransportOutcome.exn
            else TransportOutcome.response resp200) "http://x/y"
          (JsonValue.str "v") (some DEFAULT_POST_HEADERS) none testClient.2 ∧
    HttpClient.get testClient.1
        (constTransport (TransportOutcome.response resp200)) "http://x/y"
        none (some DEFAULT_GET_HEADERS) none testClient.2
      = HttpClient.get testClient.1
          (fun call => if call.ssl then TransportOutcome.exn
            else TransportOutcome.response resp200) "http://x/y"
          none (some DEFAULT_GET_HEADERS) none testClient.2 := by
  have hpost := (tls_verification_disabled testClient.1
    (constTransport (TransportOutcome.response resp200))
    (fun call => if call.ssl then TransportOutcome.exn
      else TransportOutcome.response resp200) "http://x/y" (JsonValue.str "v")
    none (some DEFAULT_POST_HEADERS) none testClient.2).2
    (by intro call hssl; simp [constTransport, hssl])
  have hget := (tls_verification_disabled testClient.1
    (constTransport (TransportOutcome.response resp200))
    (fun call => if call.ssl then TransportOutcome.exn
      else TransportOutcome.response resp200) "http://x/y" (JsonValue.str "v")
    none (some DEFAULT_GET_HEADERS) none testClient.2).2
    (by intro call hssl; simp [constTransport, hssl])
  exact ⟨hpost.1, hget.2⟩

/-- C8: `stop` is idempotent, a second call on a closed session and a call
with no session at all are no-ops, and `stop` is a total function (the
embedding of code that cannot raise). -/
theorem stop_idempotent (s : ClientState) :
    HttpClient.stop (HttpClient.stop s) = HttpClient.stop s ∧
    (s.session = none → HttpClient.stop s = s) := by
  constructor
  · cases hs : s.session with
    | none => simp [HttpClient.stop, hs]
    | some sess => simp [HttpClient.stop, hs]
  · intro hs
    simp [HttpClient.stop, hs]

/-- C8 witness: stopping the freshly constructed scenario client twice equals
stopping it once, and stopping a session-less state is the identity. -/
theorem stop_idempotent_witness :
    HttpClient.stop (HttpClient.stop testClient.2) = HttpClient.stop testClient.2 ∧
    HttpClient.stop
        { testClient.2 with session := none }
      = { testClient.2 with session := none } :=
  ⟨(stop_idempotent testClient.2).1,
   (stop_idempotent { testClient.2 with session := none }).2 rfl⟩

/-- C9: a 200 response whose body the deserializer rejects is caught by the
generic `except Exception` handler: the dispatch returns the absent value,
`http_exceptions` at (app_name, url) grows by exactly one, and the
`http_requests_failed` and `http_requests_timeout` counters are unchanged. -/
theorem decode_error_counts_exception (c : HttpClient) (t : Transport)
    (verb : Verb) (url : String) (request : Option ByteSeq)
    (params : Option ParamsT) (headers : Option HeadersT)
    (timeout : Option TimeoutT) (s : ClientState) (resp : HttpResponse)
    (e : String)
    (hresp : t (requestCall verb url request params headers timeout)
      = TransportOutcome.response resp)
    (hstatus : resp.status = HTTP_200_OK)
    (hdec : c.json_deserialize resp.bodyBytes = Except.error e) :
    do_request c t verb url request params headers timeout s
      = (none,
         { s with
             http_exceptions := incCounter s.http_exceptions c.app_name url
             logRecords := s.logRecords ++ [LogRecord.requestException url] }) ∧
    (do_request c t verb url request params headers timeout s).2.http_exceptions
        c.app_name url
      = s.http_exceptions c.app_name url + 1 ∧
    (do_request c t verb url request params headers timeout s).2.http_requests_failed
      = s.http_requests_failed ∧
    (do_request c t verb url request params headers timeout s).2.http_requests_timeout
      = s.http_requests_timeout := by
  have h : do_request c t verb url request params headers timeout s
      = (none,
         { s with
             http_exceptions := incCounter s.http_exceptions c.app_name url
             logRecords := s.logRecords ++ [LogRecord.requestException url] }) := by
    simp [do_request, hresp, hstatus, hdec]
  refine ⟨h, ?_, ?_, ?_⟩
  · rw [h]; simp [incCounter]
  · rw [h]
  · rw [h]

/-- C9 witness: a client whose deserializer raises on every body, fed a 200
response — absent value, exception counter for ("svc", "http://x/y") moves
from 0 to 1. -/
theorem decode_error_counts_exception_witness :
    (HttpClient.mk_client "svc" 1 2 okSerializer badDeserializer).1.json_deserialize
        resp200.bodyBytes
      = Except.error "JSONDecodeError" ∧
    (do_request (HttpClient.mk_client "svc" 1 2 okSerializer badDeserializer).1
        (constTransport (TransportOutcome.response resp200)) Verb.get "http://x/y"
        none none none none
        (HttpClient.mk_client "svc" 1 2 okSerializer badDeserializer).2).2.http_exceptions
        "svc" "http://x/y"
      = (HttpClient.mk_client "svc" 1 2 okSerializer
          badDeserializer).2.http_exceptions "svc" "http://x/y" + 1 := by
  refine ⟨rfl, ?_⟩
  exact (decode_error_counts_exception
    (HttpClient.mk_client "svc" 1 2 okSerializer badDeserializer).1
    (constTransport (TransportOutcome.response resp200)) Verb.get "http://x/y"
    none none none none
    (HttpClient.mk_client "svc" 1 2 okSerializer badDeserializer).2 resp200
    "JSONDecodeError" rfl rfl rfl).2.1

/-- C10: in any single dispatch, at least two of the three counters are left
unchanged (so at most one increments), and on the success path — a 200
response whose body deserializes — the state, counters and log included, is
exactly the input state. -/
theorem at_most_one_counter_per_dispatch (c : HttpClient) (t : Transport)
    (verb : Verb) (url : String) (request : Option ByteSeq)
    (params : Option ParamsT) (headers : Option HeadersT)
    (timeout : Option TimeoutT) (s : ClientState) :
    (((do_request c t verb url request params headers timeout s).2.http_requests_failed
        = s.http_requests_failed ∧
      (do_request c t verb url request params headers timeout s).2.http_requests_timeout
        = s.http_requests_timeout) ∨
     ((do_request c t verb url request params headers timeout s).2.http_requests_failed
        = s.http_requests_failed ∧
      (do_request c t verb url request params headers timeout s).2.http_exceptions
        = s.http_exceptions) ∨
     ((do_request c t verb url request params headers timeout s).2.http_requests_timeout
        = s.http_requests_timeout ∧
      (do_request c t verb url request params headers timeout s).2.http_exceptions
        = s.http_exceptions)) ∧
    (∀ resp val,
      t (requestCall verb url request params headers timeout)
        = TransportOutcome.response resp →
      resp.status = HTTP_200_OK →
      c.json_deserialize resp.bodyBytes = Except.ok val →
      (do_request c t verb url request params headers timeout s).2 = s) := by
  constructor
  · cases hout : t (requestCall verb url request params headers timeout) with
    | timeout => exact Or.inr (Or.inl (by simp [do_request, hout]))
    | exn => exact Or.inl (by simp [do_request, hout])
    | response resp =>
        by_cases hstatus : resp.status = HTTP_200_OK
        · cases hdec : c.json_deserialize resp.bodyBytes with
          | ok v => exact Or.inl (by simp [do_request, hout, hstatus, hdec])
          | error e => exact Or.inl (by simp [do_request, hout, hstatus, hdec])
        · exact Or.inr (Or.inr (by simp [do_request, hout, hstatus]))
  · intro resp val hout hstatus hdec
    simp [do_request, hout, hstatus, hdec]

/-- C10 witness: the spec's 200 scenario leaves the whole state, counters
and log included, untouched. -/
theorem at_most_one_counter_per_dispatch_witness :
    (do_request testClient.1 (constTransport (TransportOutcome.response resp200))
        Verb.get "http://x/y" none none none none testClient.2).2
      = testClient.2 :=
  (at_most_one_counter_per_dispatch testClient.1
    (constTransport (TransportOutcome.response resp200)) Verb.get "http://x/y"
    none none none none testClient.2).2 resp200
    (JsonValue.obj [("a", JsonValue.num 1)]) rfl rfl rfl

end HttpClientSpec
